import Mathlib

/-!
Verification of the dynamic-endpoint core of the latinum-wallet-mcp repository
(`latinum_wallet_mcp/dynamic/`): the endpoint registry, the synthesized tool
functions, the request builder, the response normalizer and the protocol
adapter.  Python values flowing through the system (call-time arguments,
decoded response bodies) are modelled by a JSON-like value type; Python dicts
are modelled as insertion-ordered association lists, matching dict semantics
for the operations the source uses (membership, lookup, insertion, copy,
pop, setdefault).
-/

namespace LatinumDynamic

/-- JSON-like Python values: call-time arguments and decoded response bodies.
JSON numbers are modelled as integers (no claim depends on float rendering). -/
inductive Json where
  | null : Json
  | bool (b : Bool) : Json
  | num (n : Int) : Json
  | str (s : String) : Json
  | arr (xs : List Json) : Json
  | obj (fields : List (String × Json)) : Json

/-- Python truthiness (`if data:`) on the modelled values: `None`, `False`,
`0`, `""`, `[]` and `{}` are falsy, everything else truthy. -/
def pyTruthy : Json → Bool
  | .null => false
  | .bool b => b
  | .num n => n != 0
  | .str s => !s.isEmpty
  | .arr xs => !xs.isEmpty
  | .obj fs => !fs.isEmpty

mutual
/-- Python `repr` of a modelled value (as produced for elements of lists and
dicts by `str`).  String quoting uses the apostrophe character \x27; escaping
inside the quoted text is not modelled (no claim exercises it). -/
def pyRepr : Json → String
  | .null => "None"
  | .bool true => "True"
  | .bool false => "False"
  | .num n => toString n
  | .str s => "\x27" ++ s ++ "\x27"
  | .arr xs => "[" ++ pyReprList xs ++ "]"
  | .obj fs => "\x7b" ++ pyReprFields fs ++ "\x7d"

def pyReprList : List Json → String
  | [] => ""
  | [x] => pyRepr x
  | x :: y :: xs => pyRepr x ++ ", " ++ pyReprList (y :: xs)

def pyReprFields : List (String × Json) → String
  | [] => ""
  | [kv] => "\x27" ++ kv.1 ++ "\x27: " ++ pyRepr kv.2
  | kv :: kw :: xs => "\x27" ++ kv.1 ++ "\x27: " ++ pyRepr kv.2 ++ ", " ++ pyReprFields (kw :: xs)
end

/-- Python `str(value)`, as used for URL-placeholder substitution
(endpoint_manager.py line 129): identity on strings, `repr`-style otherwise. -/
def pyStr : Json → String
  | .str s => s
  | v => pyRepr v

/-- `json.dumps` of a modelled value.  The source passes `indent=2`; the
whitespace layout is abstracted to a compact rendering, which no claim
depends on (only *whether* the dump is appended matters). -/
def pyJsonDumps : Json → String
  | .null => "null"
  | .bool true => "true"
  | .bool false => "false"
  | .num n => toString n
  | .str s => "\"" ++ s ++ "\""
  | .arr xs => "[" ++ pyReprList xs ++ "]"
  | .obj fs => "\x7b" ++ pyReprFields fs ++ "\x7d"

/-! Association-list model of Python dicts (insertion ordered). -/

/-- First value bound to `k`, if any (`d.get(k)` / `d[k]`). -/
def alistGet {α : Type} (d : List (String × α)) (k : String) : Option α :=
  match d with
  | [] => none
  | kv :: rest => if kv.1 = k then some kv.2 else alistGet rest k

/-- `k in d`. -/
def alistHas {α : Type} (d : List (String × α)) (k : String) : Bool :=
  (alistGet d k).isSome

/-- `d[k] = v`: update in place when the key exists, append otherwise
(Python dicts keep the original position of an updated key). -/
def alistSet {α : Type} (d : List (String × α)) (k : String) (v : α) : List (String × α) :=
  match d with
  | [] => [(k, v)]
  | kv :: rest => if kv.1 = k then (k, v) :: rest else kv :: alistSet rest k v

/-- `d.setdefault(k, v)`: insert `k ↦ v` only when `k` is absent. -/
def alistSetdefault {α : Type} (d : List (String × α)) (k : String) (v : α) : List (String × α) :=
  if alistHas d k then d else d ++ [(k, v)]

/-- `d.pop(k, None)`: drop the binding of `k`, keeping everything else in order. -/
def alistPop {α : Type} (d : List (String × α)) (k : String) : List (String × α) :=
  match d with
  | [] => []
  | kv :: rest => if kv.1 = k then rest else kv :: alistPop rest k

/-! Python string primitives used by the request builder:
`str.replace` (replaces EVERY non-overlapping occurrence, scanning left to
right, never rescanning replacement text) and the `in` substring test.
Both are modelled on character lists with an explicit fuel argument equal to
the scanned list's length, which suffices because every step consumes at
least one character; this keeps the recursion structural so that the kernel
can evaluate it on concrete inputs. -/

/-- One left-to-right scan of `str.replace`: at each position, if `pat` is a
prefix of the remaining text, emit `repl` and skip past the match, otherwise
copy one character.  Replacement text is never rescanned, exactly like
Python.  (Python treats an empty `pat` specially; the call sites below only
ever pass `"\x7b" ++ name ++ "\x7d"`, which is never empty.) -/
def replaceAux (pat repl : List Char) : Nat → List Char → List Char
  | _, [] => []
  | 0, s => s
  | fuel + 1, c :: cs =>
      if pat ≠ [] ∧ pat.isPrefixOf (c :: cs) then
        repl ++ replaceAux pat repl fuel (List.drop pat.length (c :: cs))
      else
        c :: replaceAux pat repl fuel cs

/-- Python `s.replace(pat, repl)` for non-empty `pat`. -/
def pyReplace (s pat repl : String) : String :=
  ⟨replaceAux pat.data repl.data s.data.length s.data⟩

/-- Helper for the substring test: does `pat` occur in `s`? -/
def containsAux (pat : List Char) : List Char → Bool
  | [] => pat.isEmpty
  | c :: cs => pat.isPrefixOf (c :: cs) || containsAux pat cs

/-- Python `pat in s` on strings. -/
def pyContains (s pat : String) : Bool :=
  containsAux pat.data s.data

/-- The opening curly brace character. -/
def lbrace : Char := Char.ofNat 123

/-- The closing curly brace character. -/
def rbrace : Char := Char.ofNat 125

/-- The literal `f"{{{name}}}"` placeholder built by the request builder. -/
def placeholder (name : String) : String :=
  "\x7b" ++ name ++ "\x7d"

/-! Data model (`dynamic/models.py`). -/

/-- `HTTPMethod` (models.py lines 12-18). -/
inductive HTTPMethod where
  | GET | POST | PUT | DELETE | PATCH
  deriving DecidableEq, Repr

/-- `APIParameter` (models.py lines 21-36).  The `default` field holds a
modelled Python value; `none` models Python `None`. -/
structure APIParameter where
  name : String
  type : String
  description : String
  required : Bool := true
  default : Option Json := none

/-- `APIEndpoint` (models.py lines 39-58).  `timeout` is a Python float;
rationals stand in for the float values that occur (no claim computes with
it).  `headers` distinguishes `None` (`none`) from a present dict. -/
structure APIEndpoint where
  name : String
  url : String
  method : HTTPMethod
  description : String
  parameters : List APIParameter
  headers : Option (List (String × String)) := none
  timeout : Rat := 30

/-! Request builder (`endpoint_manager.py`, `_call_api_endpoint`
lines 127-157). -/

/-- Lines 127-129: for each argument, in insertion order,
`url = url.replace(f"{{{param_name}}}", str(param_value))`. -/
def buildUrl (urlTemplate : String) (args : List (String × Json)) : String :=
  args.foldl (fun u kv => pyReplace u (placeholder kv.1) (pyStr kv.2)) urlTemplate

/-- Lines 134-138: `request_args = arguments.copy()`, then for GET/DELETE
every key appearing as a placeholder in the ORIGINAL `endpoint.url` is popped
from the copy.  The fold over `alistPop` realizes the pops on the copy. -/
def requestArgs (ep : APIEndpoint) (args : List (String × Json)) : List (String × Json) :=
  if ep.method = .GET ∨ ep.method = .DELETE then
    args.foldl
      (fun acc kv => if pyContains ep.url (placeholder kv.1) then alistPop acc kv.1 else acc)
      args
  else
    args

/-- The concrete outbound request handed to the HTTP transport: for GET and
DELETE the remaining arguments travel as query parameters (`params=`), for
POST/PUT/PATCH the FULL original argument map travels as the JSON body
(`json=arguments`, line 150). -/
structure HttpRequest where
  method : HTTPMethod
  url : String
  query : List (String × Json)
  body : Option (List (String × Json))
  headers : List (String × String)
  timeout : Rat

/-- Lines 131-157 up to the transport call.  The first component is the
request; the second is the value of the STORED descriptor's `headers` field
after the call.  Line 131 `headers = endpoint.headers or {}` binds `headers`
to the very dict object stored in the descriptor whenever that dict is
truthy (non-empty); line 146 `headers.setdefault('Content-Type',
'application/json')` for POST/PUT/PATCH therefore writes through to the
descriptor.  A `None` or empty `headers` yields a fresh `{}` and the
descriptor is untouched, as it is for GET/DELETE (no setdefault). -/
def buildRequest (ep : APIEndpoint) (args : List (String × Json)) :
    HttpRequest × Option (List (String × String)) :=
  let url := buildUrl ep.url args
  let base : List (String × String) := match ep.headers with
    | none => []
    | some h => h
  let aliased : Bool := match ep.headers with
    | none => false
    | some h => !h.isEmpty
  if ep.method = .GET ∨ ep.method = .DELETE then
    (⟨ep.method, url, requestArgs ep args, none, base, ep.timeout⟩, ep.headers)
  else
    let hs := alistSetdefault base "Content-Type" "application/json"
    (⟨ep.method, url, [], some args, hs, ep.timeout⟩,
     if aliased then some hs else ep.headers)

/-! Response normalizer (`endpoint_manager.py`, `_process_response`
lines 167-206). -/

/-- A delivered HTTP response as `_process_response` observes it:
`contentType` is `response.content_type` (`none` when absent), `jsonBody`
is the outcome of `await response.json()` (`.error` models a decode
exception for a malformed body), `textBody` the outcome of
`await response.text()`. -/
structure HttpResponse where
  status : Nat
  contentType : Option String
  jsonBody : Except String Json
  textBody : String

/-- The normalized result dict: `success` and `message` are always present;
`status_code` and `data` are present only on the paths that set them. -/
structure Envelope where
  success : Bool
  status_code : Option Nat
  data : Option Json
  message : String

/-- Line 178: `if response.content_type and 'json' in response.content_type`
— the content type is truthy (present and non-empty) and contains "json". -/
def declaresJson (ct : Option String) : Bool :=
  match ct with
  | none => false
  | some s => !s.isEmpty && pyContains s "json"

/-- Lines 178-181: decode as JSON under a JSON content type, as raw text
otherwise; a JSON decode exception is propagated to the handler below. -/
def decodeBody (r : HttpResponse) : Except String Json :=
  if declaresJson r.contentType then r.jsonBody else .ok (.str r.textBody)

/-- `_process_response` (lines 177-206): classify by status when the body
decoded, report a processing failure (with `status_code` but no `data`)
when decoding raised. -/
def processResponse (r : HttpResponse) (endpointName : String) : Envelope :=
  match decodeBody r with
  | .ok d =>
      if 200 ≤ r.status ∧ r.status < 300 then
        ⟨true, some r.status, some d, "Successfully called " ++ endpointName⟩
      else
        ⟨false, some r.status, some d, "API call failed with status " ++ toString r.status⟩
  | .error e =>
      ⟨false, some r.status, none, "Error processing response: " ++ e⟩

/-! Exceptions, the transport, and `_call_api_endpoint` (lines 102-165). -/

/-- A raised Python exception, as far as the claims observe it:
its type-and-message rendered by `str(e)`. -/
inductive PyExc where
  | typeError (msg : String)
  | timeoutError (msg : String)
  | connectionError (msg : String)
  deriving DecidableEq, Repr

/-- `str(e)` for a modelled exception. -/
def pyExcStr : PyExc → String
  | .typeError m => m
  | .timeoutError m => m
  | .connectionError m => m

/-- What the HTTP transport does with a request: deliver a response, or
raise (timeout, connection refusal, DNS failure, ...). -/
inductive TransportResult where
  | deliver (resp : HttpResponse)
  | raiseExc (e : PyExc)

/-- Outcome of a Python call: a returned result dict, or a propagated
exception. -/
inductive CallOutcome where
  | envelope (env : Envelope)
  | raised (e : PyExc)

/-- Lines 120-125: scan `endpoint.parameters` in declaration order for the
first required parameter absent from the argument map. -/
def firstMissingRequired : List APIParameter → List (String × Json) → Option String
  | [], _ => none
  | p :: ps, args =>
      if p.required ∧ ¬ alistHas args p.name then some p.name
      else firstMissingRequired ps args

/-- The message of the `TypeError` CPython raises when an `except` clause
names a class that is not derived from `BaseException`. -/
def badExceptClauseMsg : String :=
  "catching classes that do not inherit from BaseException is not allowed"

/-- `_call_api_endpoint` (lines 102-165).  The transport is passed in as a
function; the second component of the result lists the requests actually
sent, so that absence of network activity is observable.  When the transport
raises, control reaches the `except` clauses at lines 159-165; the first
clause names `aiohttp.ClientTimeout`, which is the timeout CONFIGURATION
dataclass (constructed at line 132), not an exception class, so matching the
active exception against it raises `TypeError("catching classes that do not
inherit from BaseException is not allowed")`; an exception raised while
matching a clause aborts the handler search, so the later `except Exception`
clause never runs and the `TypeError` propagates out of the coroutine. -/
def callApiEndpoint (endpoints : List (String × APIEndpoint)) (endpointName : String)
    (args : List (String × Json)) (transport : HttpRequest → TransportResult) :
    CallOutcome × List HttpRequest :=
  match alistGet endpoints endpointName with
  | none =>
      (.envelope ⟨false, none, none, "Endpoint \x27" ++ endpointName ++ "\x27 not found"⟩, [])
  | some ep =>
      match firstMissingRequired ep.parameters args with
      | some pname =>
          (.envelope ⟨false, none, none, "Missing required parameter: " ++ pname⟩, [])
      | none =>
          let req := (buildRequest ep args).1
          match transport req with
          | .deliver resp => (.envelope (processResponse resp endpointName), [req])
          | .raiseExc _ => (.raised (.typeError badExceptClauseMsg), [req])

/-! Registry and tool synthesis (`add_endpoint`, lines 31-100). -/

/-- The synthesized tool: what the closure built at lines 44-97 closes over
— the endpoint name and the declared parameter list (from which the
signature was built). -/
structure Tool where
  name : String
  params : List APIParameter
  description : String

/-- Build the tool for an endpoint (lines 95-97). -/
def mkTool (ep : APIEndpoint) : Tool :=
  ⟨ep.name, ep.parameters, ep.description⟩

/-- `inspect.Signature` (line 81) accepts the synthesized parameter list only
when no parameter WITHOUT a default (a required one, lines 62-69) follows a
parameter WITH one (an optional one, lines 70-79): all required parameters
must precede all optional ones. -/
def validParamOrder : List APIParameter → Bool
  | [] => true
  | p :: ps => if p.required then validParamOrder ps else ps.all (fun q => !q.required)

/-- The manager's two dicts (lines 27-28). -/
structure ManagerState where
  endpoints : List (String × APIEndpoint)
  tools : List (String × Tool)

/-- The empty manager (`__init__`, lines 26-29). -/
def ManagerState.empty : ManagerState := ⟨[], []⟩

/-- `add_endpoint` (lines 31-100) with mutation made explicit: the second
component is the manager state after the call.  A duplicate name raises
`ValueError` at line 41 BEFORE any mutation.  Otherwise the endpoint dict is
updated first (line 42); should `inspect.Signature` then reject the
parameter order (line 81), that `ValueError` propagates with the endpoint
already inserted but no tool; on the happy path both dicts gain the entry. -/
def addEndpoint (st : ManagerState) (ep : APIEndpoint) :
    Except String Unit × ManagerState :=
  if alistHas st.endpoints ep.name then
    (.error ("Endpoint \x27" ++ ep.name ++ "\x27 already exists"), st)
  else
    let st1 : ManagerState := ⟨alistSet st.endpoints ep.name ep, st.tools⟩
    if validParamOrder ep.parameters then
      (.ok (), ⟨st1.endpoints, alistSet st.tools ep.name (mkTool ep)⟩)
    else
      (.error "wrong parameter order: parameter without a default follows parameter with a default", st1)

/-- `remove_endpoint` (lines 208-230). -/
def removeEndpoint (st : ManagerState) (endpointName : String) : Bool × ManagerState :=
  let removed := alistHas st.endpoints endpointName || alistHas st.tools endpointName
  (removed, ⟨alistPop st.endpoints endpointName, alistPop st.tools endpointName⟩)

/-- Line 71: the signature default of an optional parameter is
`param.default if param.default is not None else None`. -/
def defaultFor (p : APIParameter) : Json :=
  match p.default with
  | some v => v
  | none => .null

/-- `sig.bind(**kwargs)` followed by `bound.apply_defaults()` (lines 84-85)
for a signature whose parameters are all POSITIONAL_OR_KEYWORD, called with
keyword arguments only.  `bind` walks the declared parameters in order and
raises `TypeError("missing a required argument: '<name>'")` at the first
parameter that has no default and is absent from the keywords; afterwards
any keyword not naming a declared parameter raises
`TypeError("got an unexpected keyword argument '<name>'")`.
`apply_defaults` then fills every absent optional parameter with its
default, leaving `bound.arguments` in declaration order. -/
def sigBind (params : List APIParameter) (kwargs : List (String × Json)) :
    Except PyExc (List (String × Json)) :=
  match firstMissingRequired params kwargs with
  | some pname =>
      .error (.typeError ("missing a required argument: \x27" ++ pname ++ "\x27"))
  | none =>
      match kwargs.find? (fun kv => params.all (fun p => p.name != kv.1)) with
      | some kv =>
          .error (.typeError ("got an unexpected keyword argument \x27" ++ kv.1 ++ "\x27"))
      | none =>
          .ok (params.map (fun p =>
            (p.name, match alistGet kwargs p.name with
                     | some v => v
                     | none => defaultFor p)))

/-- `endpoint_function` (lines 83-86): bind the call-time keywords against
the synthesized signature — a binding failure propagates as an exception —
then run `_call_api_endpoint` on `dict(bound.arguments)`. -/
def invokeTool (endpoints : List (String × APIEndpoint)) (t : Tool)
    (kwargs : List (String × Json)) (transport : HttpRequest → TransportResult) :
    CallOutcome × List HttpRequest :=
  match sigBind t.params kwargs with
  | .error e => (.raised e, [])
  | .ok bound => callApiEndpoint endpoints t.name bound transport

/-! Protocol adapter (`core.py`, `call_tool` lines 54-82). -/

/-- Lines 66-76: render a result dict to the protocol text.  Every dict the
pipeline produces carries `success` and `message`, so the `.get` defaults at
lines 70-74 never fire. -/
def renderEnvelope (env : Envelope) : String :=
  if env.success then
    match env.data with
    | some d =>
        if pyTruthy d then
          env.message ++ "\n\nResponse Data:\n" ++ pyJsonDumps d
        else
          env.message
    | none => env.message
  else
    env.message

/-- `call_tool` (lines 54-82).  The call-time arguments arrive as protocol
JSON, so the `json.dumps(arguments)` in the log line before the `try` is
total.  Everything else is inside the `try`: an unknown name returns the
not-found text, a raised exception from the tool is caught at line 80 and
rendered, a returned dict is rendered by the lines 66-76 logic. -/
def callTool (st : ManagerState) (name : String) (kwargs : List (String × Json))
    (transport : HttpRequest → TransportResult) : String :=
  match alistGet st.tools name with
  | none => "Tool \x27" ++ name ++ "\x27 not found"
  | some t =>
      match invokeTool st.endpoints t kwargs transport with
      | (.raised e, _) => "Error executing tool: " ++ pyExcStr e
      | (.envelope env, _) => renderEnvelope env

/-! Spec-side definition for refutation of claim C9: the spec's words say
substitution replaces "only the first match" of each placeholder. -/

/-- Modelled from the spec sentence "substitution is textual, first-match,
case-sensitive": replace only the FIRST occurrence of `pat`, leaving the
rest of the string untouched. -/
def specReplaceFirstAux (pat repl : List Char) : Nat → List Char → List Char
  | _, [] => []
  | 0, s => s
  | fuel + 1, c :: cs =>
      if pat ≠ [] ∧ pat.isPrefixOf (c :: cs) then
        repl ++ List.drop pat.length (c :: cs)
      else
        c :: specReplaceFirstAux pat repl fuel cs

/-- First-match-only replacement on strings (spec wording, not the source). -/
def specReplaceFirst (s pat repl : String) : String :=
  ⟨specReplaceFirstAux pat.data repl.data s.data.length s.data⟩

/-- URL templating as the spec describes it: first-match-only substitution
for each argument. -/
def specBuildUrlFirstMatch (urlTemplate : String) (args : List (String × Json)) : String :=
  args.foldl (fun u kv => specReplaceFirst u (placeholder kv.1) (pyStr kv.2)) urlTemplate

/-! General lemmas about the modelled `str.replace` scan. -/

theorem replaceAux_nil (pat repl : List Char) (f : Nat) :
    replaceAux pat repl f [] = [] := by
  cases f <;> rfl

theorem replaceAux_fuel (pat repl : List Char) :
    ∀ (f g : Nat) (s : List Char), s.length ≤ f → s.length ≤ g →
      replaceAux pat repl f s = replaceAux pat repl g s := by
  intro f
  induction f with
  | zero =>
    intro g s hf _
    have hs : s = [] := List.eq_nil_of_length_eq_zero (Nat.le_zero.mp hf)
    subst hs
    rw [replaceAux_nil, replaceAux_nil]
  | succ f ih =>
    intro g s hf hg
    cases s with
    | nil => rw [replaceAux_nil, replaceAux_nil]
    | cons c cs =>
      cases g with
      | zero => simp at hg
      | succ g' =>
        by_cases hcond : pat ≠ [] ∧ pat.isPrefixOf (c :: cs)
        · have hp : 0 < pat.length := List.length_pos.mpr hcond.1
          simp only [replaceAux, if_pos hcond]
          congr 1
          apply ih
          · simp only [List.length_drop, List.length_cons]
            simp only [List.length_cons] at hf
            omega
          · simp only [List.length_drop, List.length_cons]
            simp only [List.length_cons] at hg
            omega
        · simp only [replaceAux, if_neg hcond]
          congr 1
          apply ih
          · simp only [List.length_cons] at hf; omega
          · simp only [List.length_cons] at hg; omega

theorem replaceAux_skip (p : Char) (pt repl : List Char) :
    ∀ (a s : List Char) (f : Nat), p ∉ a → a.length ≤ f →
      replaceAux (p :: pt) repl f (a ++ s) =
        a ++ replaceAux (p :: pt) repl (f - a.length) s := by
  intro a
  induction a with
  | nil => intro s f _ _; simp
  | cons x a' ih =>
    intro s f hp hf
    have hpx : p ≠ x := fun h => hp (h ▸ List.mem_cons_self x a')
    cases f with
    | zero => simp at hf
    | succ f' =>
      have hcond : ¬((p :: pt) ≠ [] ∧ (p :: pt).isPrefixOf (x :: (a' ++ s))) := by
        intro h
        have hpre := h.2
        rw [List.isPrefixOf_cons₂, Bool.and_eq_true] at hpre
        exact hpx (eq_of_beq hpre.1)
      have hstep :
          replaceAux (p :: pt) repl (f' + 1) ((x :: a') ++ s)
            = x :: replaceAux (p :: pt) repl f' (a' ++ s) := by
        show (if (p :: pt) ≠ [] ∧ (p :: pt).isPrefixOf (x :: (a' ++ s)) then
                repl ++ replaceAux (p :: pt) repl f'
                  (List.drop (p :: pt).length (x :: (a' ++ s)))
              else x :: replaceAux (p :: pt) repl f' (a' ++ s))
            = x :: replaceAux (p :: pt) repl f' (a' ++ s)
        rw [if_neg hcond]
      rw [hstep, ih s f' (fun h => hp (List.mem_cons_of_mem x h)) (by simp at hf; omega)]
      simp only [List.length_cons, List.cons_append, Nat.succ_sub_succ]

theorem isPrefixOf_self_append (l t : List Char) : l.isPrefixOf (l ++ t) = true := by
  induction l with
  | nil => simp
  | cons x l' ih => simp [List.isPrefixOf_cons₂, ih]

theorem replaceAux_match (p : Char) (pt repl s : List Char) (f : Nat) :
    replaceAux (p :: pt) repl (f + 1) ((p :: pt) ++ s) =
      repl ++ replaceAux (p :: pt) repl f s := by
  have hcond : ((p :: pt) ≠ [] ∧ (p :: pt).isPrefixOf (p :: (pt ++ s))) :=
    ⟨List.cons_ne_nil p pt, isPrefixOf_self_append (p :: pt) s⟩
  show (if (p :: pt) ≠ [] ∧ (p :: pt).isPrefixOf (p :: (pt ++ s)) then
          repl ++ replaceAux (p :: pt) repl f
            (List.drop (p :: pt).length (p :: (pt ++ s)))
        else p :: replaceAux (p :: pt) repl f (pt ++ s))
      = repl ++ replaceAux (p :: pt) repl f s
  rw [if_pos hcond]
  congr 1
  rw [List.length_cons, List.drop_succ_cons, List.drop_left]

theorem replaceAux_match' (p : Char) (pt repl s : List Char) (f : Nat) (hf : 1 ≤ f) :
    replaceAux (p :: pt) repl f ((p :: pt) ++ s) =
      repl ++ replaceAux (p :: pt) repl (f - 1) s := by
  obtain ⟨f', rfl⟩ : ∃ f', f = f' + 1 := ⟨f - 1, by omega⟩
  simpa using replaceAux_match p pt repl s f'

theorem replaceAux_no_match (p : Char) (pt repl c : List Char) (f : Nat)
    (hp : p ∉ c) (hf : c.length ≤ f) :
    replaceAux (p :: pt) repl f c = c := by
  have h := replaceAux_skip p pt repl c [] f hp hf
  simpa [replaceAux_nil] using h

theorem replace_two_occurrences (p : Char) (pt repl a b c : List Char)
    (ha : p ∉ a) (hb : p ∉ b) (hc : p ∉ c) (f : Nat)
    (hf : a.length + (pt.length + 1) + b.length + (pt.length + 1) + c.length ≤ f) :
    replaceAux (p :: pt) repl f (a ++ (p :: pt) ++ b ++ (p :: pt) ++ c) =
      a ++ repl ++ b ++ repl ++ c := by
  have h1 : a ++ (p :: pt) ++ b ++ (p :: pt) ++ c
      = a ++ ((p :: pt) ++ (b ++ ((p :: pt) ++ c))) := by
    simp [List.append_assoc]
  rw [h1]
  rw [replaceAux_skip p pt repl a _ f ha (by omega)]
  rw [replaceAux_match' p pt repl _ _ (by omega)]
  rw [replaceAux_skip p pt repl b _ _ hb (by omega)]
  rw [replaceAux_match' p pt repl _ _ (by omega)]
  rw [replaceAux_no_match p pt repl c _ hc (by omega)]
  simp [List.append_assoc]

theorem placeholder_data (k : String) :
    (placeholder k).data = lbrace :: (k.data ++ [rbrace]) := by
  simp [placeholder, lbrace, rbrace, String.data_append]

/-- C9 (amended): URL templating substitutes the string form of each
argument's value for its placeholder textually and case-sensitively, before
any query/body split, replacing EVERY left-to-right non-overlapping
occurrence of the placeholder — in a template where the same placeholder
occurs twice, both occurrences are substituted. -/
theorem C9_templating_replaces_every_occurrence
    (k a b c : String) (v : Json)
    (ha : lbrace ∉ a.data) (hb : lbrace ∉ b.data) (hc : lbrace ∉ c.data) :
    buildUrl (a ++ placeholder k ++ b ++ placeholder k ++ c) [(k, v)] =
      a ++ pyStr v ++ b ++ pyStr v ++ c := by
  apply String.ext
  show (pyReplace (a ++ placeholder k ++ b ++ placeholder k ++ c)
          (placeholder k) (pyStr v)).data = _
  unfold pyReplace
  have hd : (a ++ placeholder k ++ b ++ placeholder k ++ c).data
      = a.data ++ (lbrace :: (k.data ++ [rbrace])) ++ b.data
          ++ (lbrace :: (k.data ++ [rbrace])) ++ c.data := by
    simp [String.data_append, placeholder_data k]
  rw [hd, placeholder_data]
  rw [replace_two_occurrences lbrace (k.data ++ [rbrace]) (pyStr v).data
        a.data b.data c.data ha hb hc _
        (by simp only [List.length_append, List.length_cons]; omega)]
  simp [String.data_append]

/-- C9 witness: a GET-style template with the same placeholder twice; both
occurrences are substituted. -/
theorem C9_templating_witness :
    buildUrl ("/users/" ++ placeholder "id" ++ "/posts/" ++ placeholder "id" ++ "")
        [("id", Json.str "42")]
      = "/users/" ++ "42" ++ "/posts/" ++ "42" ++ "" :=
  C9_templating_replaces_every_occurrence "id" "/users/" "/posts/" "" (Json.str "42")
    (by decide) (by decide) (by decide)

/-- C9 counterexample: the source's `str.replace` (line 129) substitutes
BOTH occurrences of a repeated placeholder, while the claim says occurrences
after the first are left unsubstituted (the first-match spec rendering
produces a different URL). -/
theorem C9_counterexample_first_match_is_wrong :
    buildUrl "/a/\x7bid\x7d/\x7bid\x7d" [("id", Json.str "7")] = "/a/7/7" ∧
    specBuildUrlFirstMatch "/a/\x7bid\x7d/\x7bid\x7d" [("id", Json.str "7")] = "/a/7/\x7bid\x7d" ∧
    buildUrl "/a/\x7bid\x7d/\x7bid\x7d" [("id", Json.str "7")]
      ≠ specBuildUrlFirstMatch "/a/\x7bid\x7d/\x7bid\x7d" [("id", Json.str "7")] := by
  refine ⟨by decide, by decide, by decide⟩

/-! Lemmas about the association-list dict model. -/

theorem alistGet_append_some {α : Type} {d : List (String × α)} {k : String} {v : α}
    (e : List (String × α)) (h : alistGet d k = some v) :
    alistGet (d ++ e) k = some v := by
  induction d with
  | nil => simp [alistGet] at h
  | cons kv rest ih =>
    by_cases hk : kv.1 = k
    · simp only [alistGet, if_pos hk] at h
      simp only [List.cons_append, alistGet, if_pos hk, h]
    · simp only [alistGet, if_neg hk] at h
      simp only [List.cons_append, alistGet, if_neg hk]
      exact ih h

theorem alistGet_append_none {α : Type} {d : List (String × α)} {k : String}
    (e : List (String × α)) (h : alistGet d k = none) :
    alistGet (d ++ e) k = alistGet e k := by
  induction d with
  | nil => rfl
  | cons kv rest ih =>
    by_cases hk : kv.1 = k
    · simp only [alistGet, if_pos hk] at h
      exact absurd h (Option.some_ne_none _)
    · simp only [alistGet, if_neg hk] at h
      simp only [List.cons_append, alistGet, if_neg hk]
      exact ih h

theorem alistGet_set_self {α : Type} (d : List (String × α)) (k : String) (v : α) :
    alistGet (alistSet d k v) k = some v := by
  induction d with
  | nil => simp [alistSet, alistGet]
  | cons kv rest ih =>
    by_cases hk : kv.1 = k
    · simp [alistSet, if_pos hk, alistGet]
    · simp only [alistSet, if_neg hk, alistGet]
      exact ih

theorem alistGet_setdefault_self {α : Type} (d : List (String × α)) (k : String) (v : α) :
    alistGet (alistSetdefault d k v) k = some ((alistGet d k).getD v) := by
  unfold alistSetdefault alistHas
  cases hg : alistGet d k with
  | some w => simp [hg]
  | none =>
    simp only [hg, Option.isSome_none, Bool.false_eq_true, if_false, Option.getD_none]
    rw [alistGet_append_none _ hg]
    simp [alistGet]

theorem alistGet_setdefault_other {α : Type} (d : List (String × α)) (k k' : String) (v : α)
    (h : k' ≠ k) :
    alistGet (alistSetdefault d k v) k' = alistGet d k' := by
  unfold alistSetdefault
  by_cases hh : alistHas d k
  · simp [hh]
  · simp only [hh, Bool.false_eq_true, if_false]
    cases hg : alistGet d k' with
    | some w => exact alistGet_append_some _ hg
    | none =>
      rw [alistGet_append_none _ hg]
      have hne : ¬k = k' := fun hkk => h hkk.symm
      simp [alistGet, hne, hg]

/-! C3: duplicate registration is rejected and leaves the registry as it
was. -/

theorem addEndpoint_dup (st : ManagerState) (ep : APIEndpoint)
    (h : alistHas st.endpoints ep.name) :
    addEndpoint st ep = (.error ("Endpoint \x27" ++ ep.name ++ "\x27 already exists"), st) := by
  unfold addEndpoint
  rw [if_pos h]

/-- C3: once a name is successfully registered, registering any second
descriptor with the same name fails with the duplicate-name `ValueError`
and leaves the manager state unchanged — both dicts still map the name to
the originally registered descriptor and its synthesized tool. -/
theorem C3_duplicate_name_rejected (st : ManagerState) (ep0 ep1 : APIEndpoint)
    (h0 : (addEndpoint st ep0).1 = .ok ())
    (hname : ep1.name = ep0.name) :
    (addEndpoint (addEndpoint st ep0).2 ep1).1
        = .error ("Endpoint \x27" ++ ep1.name ++ "\x27 already exists") ∧
    (addEndpoint (addEndpoint st ep0).2 ep1).2 = (addEndpoint st ep0).2 ∧
    alistGet (addEndpoint st ep0).2.endpoints ep0.name = some ep0 ∧
    alistGet (addEndpoint st ep0).2.tools ep0.name = some (mkTool ep0) := by
  by_cases hhas : alistHas st.endpoints ep0.name
  · exfalso
    unfold addEndpoint at h0
    rw [if_pos hhas] at h0
    simp at h0
  · by_cases hord : validParamOrder ep0.parameters
    · have hst : (addEndpoint st ep0).2
          = ⟨alistSet st.endpoints ep0.name ep0, alistSet st.tools ep0.name (mkTool ep0)⟩ := by
        unfold addEndpoint
        rw [if_neg hhas]
        simp [hord]
      have hend : alistGet (addEndpoint st ep0).2.endpoints ep0.name = some ep0 := by
        rw [hst]
        exact alistGet_set_self st.endpoints ep0.name ep0
      have htool : alistGet (addEndpoint st ep0).2.tools ep0.name = some (mkTool ep0) := by
        rw [hst]
        exact alistGet_set_self st.tools ep0.name (mkTool ep0)
      have hhas1 : alistHas (addEndpoint st ep0).2.endpoints ep1.name := by
        rw [hname]
        unfold alistHas
        rw [hend]
        rfl
      have hdup := addEndpoint_dup (addEndpoint st ep0).2 ep1 hhas1
      refine ⟨?_, ?_, hend, htool⟩
      · rw [hdup]
      · rw [hdup]
    · exfalso
      unfold addEndpoint at h0
      rw [if_neg hhas] at h0
      simp [hord] at h0

/-- C3 witness: registering `"pay"` twice on the empty manager. -/
theorem C3_witness :
    let ep0 : APIEndpoint :=
      { name := "pay", url := "https://api.example.com/pay",
        method := .POST, description := "submit a payment",
        parameters := [{ name := "amount", type := "string", description := "amount" }] }
    (addEndpoint (addEndpoint ManagerState.empty ep0).2 ep0).1
        = .error ("Endpoint \x27pay\x27 already exists") ∧
    (addEndpoint (addEndpoint ManagerState.empty ep0).2 ep0).2
        = (addEndpoint ManagerState.empty ep0).2 ∧
    alistGet (addEndpoint ManagerState.empty ep0).2.endpoints "pay" = some ep0 ∧
    alistGet (addEndpoint ManagerState.empty ep0).2.tools "pay" = some (mkTool ep0) := by
  intro ep0
  exact C3_duplicate_name_rejected ManagerState.empty ep0 ep0 rfl rfl

/-! C5: parameter placement for GET/DELETE. -/

theorem alistPop_append_of_no_key {α : Type} (xs ys : List (String × α)) (k : String)
    (h : ∀ kv ∈ xs, kv.1 ≠ k) :
    alistPop (xs ++ ys) k = xs ++ alistPop ys k := by
  induction xs with
  | nil => rfl
  | cons kv rest ih =>
    have hstep : alistPop ((kv :: rest) ++ ys) k = kv :: alistPop (rest ++ ys) k := by
      show (if kv.1 = k then rest ++ ys else kv :: alistPop (rest ++ ys) k)
          = kv :: alistPop (rest ++ ys) k
      rw [if_neg (h kv (List.mem_cons_self kv rest))]
    rw [hstep, ih (fun kw hm => h kw (List.mem_cons_of_mem kv hm))]
    rfl

theorem popFold_eq_filter (P : String → Bool) :
    ∀ (rest done : List (String × Json)),
      ((done ++ rest).map Prod.fst).Nodup →
      rest.foldl (fun acc kv => if P kv.1 then alistPop acc kv.1 else acc)
        ((done.filter fun kv => !P kv.1) ++ rest)
      = (done ++ rest).filter fun kv => !P kv.1 := by
  intro rest
  induction rest with
  | nil =>
    intro done _
    simp
  | cons kv rest' ih =>
    intro done h
    have hnd' : (((done ++ [kv]) ++ rest').map Prod.fst).Nodup := by
      simpa [List.append_assoc] using h
    have hkv_not_done : ∀ kw ∈ done, kw.1 ≠ kv.1 := by
      intro kw hm heq
      rw [List.map_append] at h
      rcases List.nodup_append.mp h with ⟨-, -, hdisj⟩
      have h1 : kw.1 ∈ done.map Prod.fst := List.mem_map_of_mem Prod.fst hm
      have h2 : kw.1 ∈ (kv :: rest').map Prod.fst := by
        rw [heq]; simp
      exact hdisj h1 h2
    by_cases hp : P kv.1
    · have hfil : ∀ kw ∈ (done.filter fun kw => !P kw.1), kw.1 ≠ kv.1 :=
        fun kw hm => hkv_not_done kw (List.mem_of_mem_filter hm)
      have hpop : alistPop ((done.filter fun kw => !P kw.1) ++ (kv :: rest')) kv.1
          = (done.filter fun kw => !P kw.1) ++ rest' := by
        rw [alistPop_append_of_no_key _ _ _ hfil]
        simp [alistPop]
      simp only [List.foldl_cons, if_pos hp]
      rw [hpop]
      have hstep : (done.filter fun kw => !P kw.1)
          = ((done ++ [kv]).filter fun kw => !P kw.1) := by
        simp [List.filter_append, hp]
      rw [hstep, ih (done ++ [kv]) hnd']
      simp [List.append_assoc]
    · simp only [List.foldl_cons, if_neg hp]
      have hstep : (done.filter fun kw => !P kw.1) ++ kv :: rest'
          = ((done ++ [kv]).filter fun kw => !P kw.1) ++ rest' := by
        simp [List.filter_append, hp]
      rw [hstep, ih (done ++ [kv]) hnd']
      simp [List.append_assoc]

theorem requestArgs_eq_filter (ep : APIEndpoint) (args : List (String × Json))
    (hm : ep.method = .GET ∨ ep.method = .DELETE)
    (hnd : (args.map Prod.fst).Nodup) :
    requestArgs ep args = args.filter fun kv => !pyContains ep.url (placeholder kv.1) := by
  unfold requestArgs
  rw [if_pos hm]
  have h := popFold_eq_filter (fun k => pyContains ep.url (placeholder k)) args []
    (by simpa using hnd)
  simpa using h

/-- C5: for GET/DELETE endpoints, every argument whose key occurs as a
placeholder in the URL template is substituted into the URL and removed from
the query parameters; exactly the remaining arguments are sent as query
parameters, and no body is sent. -/
theorem C5_get_delete_query_placement (ep : APIEndpoint) (args : List (String × Json))
    (hm : ep.method = .GET ∨ ep.method = .DELETE)
    (hnd : (args.map Prod.fst).Nodup) :
    (buildRequest ep args).1.url = buildUrl ep.url args ∧
    (buildRequest ep args).1.body = none ∧
    (buildRequest ep args).1.query
      = args.filter (fun kv => !pyContains ep.url (placeholder kv.1)) ∧
    ∀ kv, kv ∈ (buildRequest ep args).1.query
      ↔ kv ∈ args ∧ pyContains ep.url (placeholder kv.1) = false := by
  have hb : buildRequest ep args
      = (⟨ep.method, buildUrl ep.url args, requestArgs ep args, none,
          (match ep.headers with | none => [] | some h => h), ep.timeout⟩, ep.headers) := by
    unfold buildRequest
    rw [if_pos hm]
  refine ⟨by rw [hb], by rw [hb], ?_, ?_⟩
  · rw [hb]
    exact requestArgs_eq_filter ep args hm hnd
  · intro kv
    rw [hb]
    show kv ∈ requestArgs ep args ↔ _
    rw [requestArgs_eq_filter ep args hm hnd, List.mem_filter]
    simp

/-- C5 witness: `urlTemplate="/users/{id}"`, GET, args `{id:"42",
verbose:"true"}` give URL path `/users/42` and query `verbose=true` with
`id` not duplicated in the query. -/
theorem C5_witness :
    let ep : APIEndpoint :=
      { name := "getUser", url := "/users/\x7bid\x7d", method := .GET,
        description := "d",
        parameters := [{ name := "id", type := "string", description := "i" },
                       { name := "verbose", type := "string", description := "v",
                         required := false }] }
    (buildRequest ep [("id", Json.str "42"), ("verbose", Json.str "true")]).1.url
        = "/users/42" ∧
    (buildRequest ep [("id", Json.str "42"), ("verbose", Json.str "true")]).1.query
        = [("verbose", Json.str "true")] ∧
    (buildRequest ep [("id", Json.str "42"), ("verbose", Json.str "true")]).1.body = none := by
  intro ep
  have h := C5_get_delete_query_placement ep
      [("id", Json.str "42"), ("verbose", Json.str "true")] (Or.inl rfl) (by decide)
  refine ⟨?_, ?_, h.2.1⟩
  · rw [h.1]
    rfl
  · rw [h.2.2.1]
    rfl

/-! C6: body and Content-Type for POST/PUT/PATCH. -/

/-- C6: for POST/PUT/PATCH the request body is the full original argument
map (including arguments that were substituted into the URL path), and the
sent headers are the descriptor's headers with `Content-Type` defaulted to
`application/json` only when the descriptor does not already define it. -/
theorem C6_post_body_and_content_type (ep : APIEndpoint) (args : List (String × Json))
    (h : ep.method = .POST ∨ ep.method = .PUT ∨ ep.method = .PATCH) :
    (buildRequest ep args).1.body = some args ∧
    alistGet (buildRequest ep args).1.headers "Content-Type"
      = some ((alistGet (ep.headers.getD []) "Content-Type").getD "application/json") ∧
    ∀ k, k ≠ "Content-Type" →
      alistGet (buildRequest ep args).1.headers k = alistGet (ep.headers.getD []) k := by
  have hng : ¬(ep.method = .GET ∨ ep.method = .DELETE) := by
    rcases h with h | h | h <;> rw [h] <;> decide
  have hbase : (match ep.headers with | none => ([] : List (String × String)) | some hs => hs)
      = ep.headers.getD [] := by
    cases ep.headers <;> rfl
  have hb : (buildRequest ep args).1
      = ⟨ep.method, buildUrl ep.url args, [], some args,
          alistSetdefault (ep.headers.getD []) "Content-Type" "application/json",
          ep.timeout⟩ := by
    unfold buildRequest
    rw [if_neg hng]
    rw [hbase]
  refine ⟨by rw [hb], ?_, ?_⟩
  · rw [hb]
    exact alistGet_setdefault_self (ep.headers.getD []) "Content-Type" "application/json"
  · intro k hk
    rw [hb]
    exact alistGet_setdefault_other (ep.headers.getD []) "Content-Type" k "application/json" hk

/-- C6 witness: a POST endpoint whose URL consumes `id`; the body is still
the full argument map and `Content-Type` is defaulted. -/
theorem C6_witness :
    let ep : APIEndpoint :=
      { name := "updateUser", url := "/users/\x7bid\x7d", method := .POST,
        description := "d",
        parameters := [{ name := "id", type := "string", description := "i" }] }
    (buildRequest ep [("id", Json.str "42")]).1.body = some [("id", Json.str "42")] ∧
    alistGet (buildRequest ep [("id", Json.str "42")]).1.headers "Content-Type"
        = some "application/json" := by
  intro ep
  have h := C6_post_body_and_content_type ep [("id", Json.str "42")] (Or.inl rfl)
  exact ⟨h.1, h.2.1⟩

/-! C2: response classification. -/

/-- C2: for every delivered response whose body decodes, the envelope
carries the response status and the decoded body, and is a success with
message `Successfully called <name>` exactly when the status is in
`[200, 300)`, otherwise a failure with message
`API call failed with status <status>`; the decoded body is the JSON value
under a JSON content type and the raw text otherwise. -/
theorem C2_response_classification (r : HttpResponse) (endpointName : String) (d : Json)
    (h : decodeBody r = .ok d) :
    (processResponse r endpointName).status_code = some r.status ∧
    (processResponse r endpointName).data = some d ∧
    (declaresJson r.contentType = true → r.jsonBody = .ok d) ∧
    (declaresJson r.contentType = false → d = .str r.textBody) ∧
    (if 200 ≤ r.status ∧ r.status < 300 then
        (processResponse r endpointName).success = true ∧
        (processResponse r endpointName).message = "Successfully called " ++ endpointName
      else
        (processResponse r endpointName).success = false ∧
        (processResponse r endpointName).message
          = "API call failed with status " ++ toString r.status) := by
  refine ⟨?_, ?_, ?_, ?_, ?_⟩
  · by_cases hs : 200 ≤ r.status ∧ r.status < 300 <;>
      simp [processResponse, h, hs]
  · by_cases hs : 200 ≤ r.status ∧ r.status < 300 <;>
      simp [processResponse, h, hs]
  · intro hj
    simp only [decodeBody, hj, if_true] at h
    exact h
  · intro hj
    simp only [decodeBody, hj, Bool.false_eq_true, if_false] at h
    exact (Except.ok.inj h).symm
  · by_cases hs : 200 ≤ r.status ∧ r.status < 300
    · rw [if_pos hs]
      constructor <;> simp [processResponse, h, hs]
    · rw [if_neg hs]
      constructor <;> simp [processResponse, h, hs]

/-- C2 witness: a 201 JSON response is a success envelope with
`statusCode=201` and the parsed JSON as data. -/
theorem C2_witness :
    (processResponse ⟨201, some "application/json", Except.ok (Json.num 5), "raw"⟩
        "createUser").success = true ∧
    (processResponse ⟨201, some "application/json", Except.ok (Json.num 5), "raw"⟩
        "createUser").status_code = some 201 ∧
    (processResponse ⟨201, some "application/json", Except.ok (Json.num 5), "raw"⟩
        "createUser").data = some (Json.num 5) ∧
    (processResponse ⟨201, some "application/json", Except.ok (Json.num 5), "raw"⟩
        "createUser").message = "Successfully called createUser" := by
  have h := C2_response_classification
      ⟨201, some "application/json", Except.ok (Json.num 5), "raw"⟩ "createUser"
      (Json.num 5) rfl
  have h5 := h.2.2.2.2
  rw [if_pos (by constructor <;> omega : 200 ≤ 201 ∧ 201 < 300)] at h5
  exact ⟨h5.1, h.1, h.2.1, h5.2⟩

/-! C10: falsy success data renders as the message alone. -/

/-- C10: in the protocol adapter's rendering of a success envelope, the
pretty-printed data is appended only when the data value is truthy; a
present-but-falsy data value renders exactly as if data were absent. -/
theorem C10_falsy_data_renders_message_alone (env : Envelope) (d : Json)
    (hs : env.success = true) (hd : env.data = some d) (ht : pyTruthy d = false) :
    renderEnvelope env = env.message ∧
    renderEnvelope env = renderEnvelope { env with data := none } := by
  constructor
  · simp [renderEnvelope, hs, hd, ht]
  · simp [renderEnvelope, hs, hd, ht]

/-- C10 witness: a success envelope whose data is the empty dict renders as
the message alone. -/
theorem C10_witness :
    renderEnvelope ⟨true, some 200, some (Json.obj []), "Successfully called x"⟩
      = "Successfully called x" :=
  (C10_falsy_data_renders_message_alone
    ⟨true, some 200, some (Json.obj []), "Successfully called x"⟩
    (Json.obj []) rfl rfl rfl).1

/-! C4: the protocol adapter never lets a fault reach the client. -/

/-- C4: `call_tool` is a total function into protocol text: an unregistered
name yields `Tool '<name>' not found`, and an exception raised during the
invocation is caught and rendered as `Error executing tool: <description>`. -/
theorem C4_callTool_renders_errors (st : ManagerState) (name : String)
    (kwargs : List (String × Json)) (transport : HttpRequest → TransportResult) :
    (alistGet st.tools name = none →
      callTool st name kwargs transport = "Tool \x27" ++ name ++ "\x27 not found") ∧
    ∀ t e reqs, alistGet st.tools name = some t →
      invokeTool st.endpoints t kwargs transport = (.raised e, reqs) →
      callTool st name kwargs transport = "Error executing tool: " ++ pyExcStr e := by
  constructor
  · intro h
    simp [callTool, h]
  · intro t e reqs ht hi
    simp [callTool, ht, hi]

/-- C4 witness: an unregistered name, and a tool whose invocation raises (a
binding failure), both render as protocol text rather than faulting. -/
theorem C4_witness :
    let ep : APIEndpoint :=
      { name := "pay", url := "https://api.example.com/pay", method := .POST,
        description := "d",
        parameters := [{ name := "amount", type := "string", description := "a" }] }
    callTool ManagerState.empty "nope" []
        (fun _ => .raiseExc (.connectionError "refused"))
      = "Tool \x27nope\x27 not found" ∧
    callTool ⟨[("pay", ep)], [("pay", mkTool ep)]⟩ "pay" []
        (fun _ => .raiseExc (.connectionError "refused"))
      = "Error executing tool: missing a required argument: \x27amount\x27" := by
  intro ep
  constructor
  · exact (C4_callTool_renders_errors ManagerState.empty "nope" []
      (fun _ => .raiseExc (.connectionError "refused"))).1 rfl
  · exact (C4_callTool_renders_errors ⟨[("pay", ep)], [("pay", mkTool ep)]⟩ "pay" []
      (fun _ => .raiseExc (.connectionError "refused"))).2
      (mkTool ep) (.typeError "missing a required argument: \x27amount\x27") [] rfl rfl

/-! C1: the fast-fail validation is shadowed by signature binding. -/

/-- C1 (code bug): invoking the synthesized tool with a map lacking a
required parameter raises `TypeError` from `sig.bind` (endpoint_manager.py
line 84) before the "Missing required parameter" validation at lines
120-125 can run, so no failure envelope is returned and an exception
propagates out of the tool function; the envelope the claim (and lines
122-125) describe is produced only when `_call_api_endpoint` is entered
directly with the incomplete map.  Both calls perform no network activity
(the request trace is empty). -/
theorem C1_missing_required_raises_not_envelope :
    let ep : APIEndpoint :=
      { name := "pay", url := "https://api.example.com/pay", method := .POST,
        description := "d",
        parameters := [{ name := "amount", type := "string", description := "a" }] }
    let tr : HttpRequest → TransportResult := fun _ => .raiseExc (.connectionError "x")
    invokeTool [("pay", ep)] (mkTool ep) [] tr
        = (.raised (.typeError "missing a required argument: \x27amount\x27"), []) ∧
    callApiEndpoint [("pay", ep)] "pay" [] tr
        = (.envelope ⟨false, none, none, "Missing required parameter: amount"⟩, []) := by
  exact ⟨rfl, rfl⟩

/-! C7: the except clauses cannot catch transport failures. -/

/-- C7 (code bug): when the transport raises — timeout, connection refusal,
DNS failure — `_call_api_endpoint` does not resolve to a failure envelope:
matching the active exception against `aiohttp.ClientTimeout` (the timeout
configuration dataclass named in the first `except` clause, line 159)
raises `TypeError`, which propagates to the caller; the handlers that would
build the failure envelopes (lines 159-165) are unreachable. -/
theorem C7_transport_failure_propagates_TypeError :
    let ep : APIEndpoint :=
      { name := "ping", url := "https://api.example.com/ping", method := .GET,
        description := "d", parameters := [] }
    (callApiEndpoint [("ping", ep)] "ping" []
        (fun _ => .raiseExc (.timeoutError "timed out"))).1
      = .raised (.typeError badExceptClauseMsg) ∧
    (callApiEndpoint [("ping", ep)] "ping" []
        (fun _ => .raiseExc (.connectionError "Cannot connect to host"))).1
      = .raised (.typeError badExceptClauseMsg) := by
  exact ⟨rfl, rfl⟩

/-! C8: building a POST request writes through to the stored descriptor's
headers. -/

/-- C8 (code bug): for a POST endpoint whose descriptor carries a non-empty
headers dict without `Content-Type`, building the request mutates the STORED
descriptor's headers — `headers = endpoint.headers or {}` (line 131) aliases
the stored dict and `setdefault` (line 146) inserts `Content-Type` into it —
so the descriptor's headers after the call differ from their value before. -/
theorem C8_descriptor_headers_mutated :
    let ep : APIEndpoint :=
      { name := "pay", url := "https://api.example.com/pay", method := .POST,
        description := "d", parameters := [],
        headers := some [("X-Api-Key", "k")] }
    (buildRequest ep []).2 = some [("X-Api-Key", "k"), ("Content-Type", "application/json")] ∧
    (buildRequest ep []).2 ≠ ep.headers := by
  exact ⟨rfl, by decide⟩

end LatinumDynamic
